import Mathlib

/-!
Verification of the faucet contract gateway
(`src/contracts/Faucet_Integrate.js`).

The file is a shallow embedding of the single JavaScript module of the
repository.  The module is straight-line asynchronous glue code around an
external wallet provider (`window.ethereum`) and two remote contracts; all
the external world is modelled by an explicit environment record `Env`
holding, for each remote interaction the code may perform, either the value
it returns or the error it raises.  JavaScript exceptions are modelled by
`Except Err`, and the `try/catch` blocks of the source are mirrored by
explicit matches on the body result.  Decimal display strings produced by
`ethers.formatUnits` are exact decimal renderings of `value / 10 ^ decimals`,
so they are modelled by their exact rational value; the sentinel string "0"
returned by `getFaucetBalance` on error is correspondingly the rational 0.
`BigInt.toString` is modelled by `toString : Nat → String` (`Nat.repr`).
-/

namespace Faucet

/-- JavaScript errors are carried as their message strings. -/
abbrev Err := String

/-- Constant `FAUCET_ADDRESS` (line 4 of the source). -/
def FAUCET_ADDRESS : String := "0x2F10297555813b8706e9E0eF72fAfAb729516B65"

/-- The expected USDC token address hard-coded at lines 97 and 100. -/
def EXPECTED_USDC_ADDRESS : String := "0x1904f0522FC7f10517175Bd0E546430f1CF0B9Fa"

/-- A transaction object as returned by a state-changing contract call. -/
structure Tx where
  hash : String
deriving DecidableEq, Repr

/-- Handle `new ethers.Contract(FAUCET_ADDRESS, FAUCET_ABI, signer)`: it
combines the contract address with the signer (the caller's active account)
it is bound to. -/
structure Contract where
  address : String
  signer : String
deriving DecidableEq, Repr

/-- The external world as seen by the module: presence of the injected
wallet provider and the outcome (value or raised error) of every remote
interaction the code can attempt.  Contract-method fields are named after
the remote methods they model. -/
structure Env where
  /-- Whether `window.ethereum` is present (truthy). -/
  ethereumPresent : Bool
  /-- Result of `await provider.getSigner()`: the active account address, or an error. -/
  getSigner : Except Err String
  /-- Result of the eth_requestAccounts provider request at line 74. -/
  requestAccounts : Except Err (List String)
  /-- Result of `contract.getRemainingAllowance(user)` per address. -/
  getRemainingAllowanceCall : String → Except Err ℕ
  /-- Result of `contract.usdcToken()`: the linked token address. -/
  usdcToken : Except Err String
  /-- Result of `contract.getFaucetBalance()`: scaled integer balance. -/
  getFaucetBalanceCall : Except Err ℕ
  /-- Result of `usdcContract.decimals()` on the linked token contract. -/
  decimals : Except Err ℕ
  /-- Result of `usdcContract.balanceOf(addr)` on the linked token contract. -/
  balanceOf : String → Except Err ℕ
  /-- Result of `contract.timeUntilNextAutoMint()`: raw seconds until next mint. -/
  timeUntilNextAutoMintCall : Except Err ℕ
  /-- Result of `contract.requestTokens(amountInWei)`: submission of the request. -/
  requestTokensCall : ℕ → Except Err Tx
  /-- Result of `tx.wait()`: awaiting inclusion of the submitted transaction. -/
  txWait : Except Err Unit

/-- The `amount` argument of `requestTokens` as a JavaScript value: either a
missing value (`null`/`undefined`) or a decimal number, modelled exactly as
a rational. -/
inductive JsVal where
  | vnull : JsVal
  | vnum : ℚ → JsVal
deriving DecidableEq

/-- JavaScript truthiness of the `amount` argument: `null`, `undefined` and
`0` are falsy; every other number is truthy. -/
def truthy : JsVal → Bool
  | JsVal.vnull => false
  | JsVal.vnum q => decide (q ≠ 0)

/-- The numeric value of the argument (`0` for a missing value; the missing
case is only reached behind the truthiness guard in the source). -/
def numVal : JsVal → ℚ
  | JsVal.vnull => 0
  | JsVal.vnum q => q

/-- Function `ethers.parseUnits(x.toString(), d)`: exact fixed-point scaling of a
decimal string by `10 ^ d`.  Succeeds with the integer `x * 10 ^ d` when `x`
has at most `d` fractional digits, and raises otherwise. -/
def parseUnits (q : ℚ) (d : ℕ) : Except Err ℤ :=
  if (q * 10 ^ d).den = 1 then Except.ok (q * 10 ^ d).num
  else Except.error "too many decimals"

/-- ABI encoding of a `uint256` argument: ethers raises a client-side
out-of-bounds error for values outside `[0, 2^256)`. -/
def encodeUint256 (x : ℤ) : Except Err ℕ :=
  if x < 0 ∨ 2 ^ 256 ≤ x then Except.error "value out-of-bounds"
  else Except.ok x.toNat

/-- Function `ethers.formatUnits(n, d)`: the exact decimal rendering of
`n / 10 ^ d`, modelled by its rational value. -/
def formatUnits (n : ℤ) (d : ℕ) : ℚ := (n : ℚ) / 10 ^ d

/-- JavaScript `String.prototype.toLowerCase()` on the (ASCII) address
strings compared at line 100, as a structurally recursive map over the
characters. -/
def toLowerStr (s : String) : String := ⟨s.data.map Char.toLower⟩

/-- Function `getFaucetContract()` (lines 29-47): fails when `window.ethereum` is
absent; otherwise obtains the signer from the provider, checks the
configured address for truthiness (the empty string is the falsy string),
and returns the contract handle bound to the signer.  The `catch` block
only logs and rethrows the same error.  The contract address is taken as a
parameter so that the unset-address branch is statable; the module always
passes the constant `FAUCET_ADDRESS`. -/
def getFaucetContract (faucetAddress : String) (env : Env) :
    Except Err Contract :=
  if !env.ethereumPresent then Except.error "MetaMask not detected"
  else
    match env.getSigner with
    | Except.error e => Except.error e
    | Except.ok signer =>
      if faucetAddress = "" then
        Except.error "Faucet contract address is undefined"
      else Except.ok ⟨faucetAddress, signer⟩

/-- Function `requestTokens(amount)` (lines 50-68).  Returns the outcome together
with a flag recording whether any provider/network interaction was
attempted (the first such interaction is `provider.getSigner()` inside
`getFaucetContract`, reached only when `window.ethereum` is present).
The `catch` block only logs and rethrows the same error. -/
def requestTokens (env : Env) (amount : JsVal) : Except Err Tx × Bool :=
  if !truthy amount then (Except.error "Amount is required", false)
  else
    match getFaucetContract FAUCET_ADDRESS env with
    | Except.error e => (Except.error e, env.ethereumPresent)
    | Except.ok _ =>
      match parseUnits (numVal amount) 6 with
      | Except.error e => (Except.error e, true)
      | Except.ok scaled =>
        match encodeUint256 scaled with
        | Except.error e => (Except.error e, true)
        | Except.ok amountInWei =>
          match env.requestTokensCall amountInWei with
          | Except.error e => (Except.error e, true)
          | Except.ok tx =>
            match env.txWait with
            | Except.error e => (Except.error e, true)
            | Except.ok _ => (Except.ok tx, true)

/-- The `try` body of `getRemainingAllowance()` (lines 72-81): connect,
request the accounts, query the allowance of the first account, format with
6 decimals.  An empty account list makes `accounts[0]` undefined, which the
contract call rejects as an invalid address. -/
def getRemainingAllowanceBody (env : Env) : Except Err ℚ :=
  match getFaucetContract FAUCET_ADDRESS env with
  | Except.error e => Except.error e
  | Except.ok _ =>
    match env.requestAccounts with
    | Except.error e => Except.error e
    | Except.ok accounts =>
      match accounts.head? with
      | none => Except.error "invalid address"
      | some userAddress =>
        match env.getRemainingAllowanceCall userAddress with
        | Except.error e => Except.error e
        | Except.ok remainingWei => Except.ok (formatUnits remainingWei 6)

/-- Function `getRemainingAllowance()` (lines 71-86): the `catch` block logs and
rethrows the error unchanged. -/
def getRemainingAllowance (env : Env) : Except Err ℚ :=
  match getRemainingAllowanceBody env with
  | Except.error e => Except.error e
  | Except.ok v => Except.ok v

/-- The console diagnostics emitted by `getFaucetBalance`, modelled as
structured events. -/
inductive LogEvent where
  | gettingBalance : LogEvent
  | usdcTokenAddr : String → LogEvent
  | expectedUsdcAddr : String → LogEvent
  | addrMismatch : LogEvent
  | connectedTo : String → LogEvent
  | rawBalance : ℕ → LogEvent
  | formattedBalance : ℚ → LogEvent
  | tokenDecimals : ℕ → LogEvent
  | directBalanceCheck : ℚ → LogEvent
  | failed : Err → LogEvent
deriving DecidableEq

/-- The `try` body of `getFaucetBalance()` (lines 90-127), with its log
trace: connect, read the linked token address, flag (but do not abort on) a
case-insensitive mismatch with the expected address, read the faucet
balance and format it with 6 decimals, then cross-validate by reading the
token's `decimals()` and a direct `balanceOf(FAUCET_ADDRESS)`.  The return
value is the formatted faucet balance. -/
def getFaucetBalanceRun (env : Env) : Except Err ℚ × List LogEvent :=
  let logs0 := [LogEvent.gettingBalance]
  match getFaucetContract FAUCET_ADDRESS env with
  | Except.error e => (Except.error e, logs0)
  | Except.ok _ =>
    match env.usdcToken with
    | Except.error e => (Except.error e, logs0)
    | Except.ok tokenAddress =>
      let logs1 := logs0 ++ [LogEvent.usdcTokenAddr tokenAddress,
        LogEvent.expectedUsdcAddr EXPECTED_USDC_ADDRESS]
      let logs2 :=
        if toLowerStr tokenAddress ≠ toLowerStr EXPECTED_USDC_ADDRESS then
          logs1 ++ [LogEvent.addrMismatch]
        else logs1
      let logs3 := logs2 ++ [LogEvent.connectedTo FAUCET_ADDRESS]
      match env.getFaucetBalanceCall with
      | Except.error e => (Except.error e, logs3)
      | Except.ok balanceWei =>
        let formattedBalance := formatUnits balanceWei 6
        let logs4 := logs3 ++ [LogEvent.rawBalance balanceWei,
          LogEvent.formattedBalance formattedBalance]
        match env.decimals with
        | Except.error e => (Except.error e, logs4)
        | Except.ok decimals =>
          let logs5 := logs4 ++ [LogEvent.tokenDecimals decimals]
          match env.balanceOf FAUCET_ADDRESS with
          | Except.error e => (Except.error e, logs5)
          | Except.ok directBalance =>
            (Except.ok formattedBalance,
             logs5 ++ [LogEvent.directBalanceCheck
               (formatUnits directBalance decimals)])

/-- Function `getFaucetBalance()` (lines 89-133): the `catch` block logs the error
and returns the sentinel "0" (the rational 0) instead of propagating. -/
def getFaucetBalance (env : Env) : ℚ × List LogEvent :=
  match getFaucetBalanceRun env with
  | (Except.ok v, logs) => (v, logs)
  | (Except.error e, logs) => (0, logs ++ [LogEvent.failed e])

/-- The record returned by `getTimeUntilNextAutoMint`. -/
structure TimeResult where
  timeInSeconds : String
  formatted : String
  isAvailableNow : Bool
deriving DecidableEq, Repr

/-- The days/hours/minutes breakdown computed at lines 185-189:
`days = ⌊t / 86400⌋`, `hours = ⌊(t % 86400) / 3600⌋`,
`minutes = ⌊(t % 3600) / 60⌋`, interpolated into the template string.
(`Number(timeInSeconds)` is exact for durations below `2 ^ 53`.) -/
def formatDuration (t : ℕ) : String :=
  toString (t / 86400) ++ " days, " ++ toString (t % 86400 / 3600) ++
    " hours, " ++ toString (t % 3600 / 60) ++ " minutes"

/-- The `try` body of `getTimeUntilNextAutoMint()` (lines 174-196):
connect, then read the raw duration. -/
def getTimeUntilNextAutoMintBody (env : Env) : Except Err ℕ :=
  match getFaucetContract FAUCET_ADDRESS env with
  | Except.error e => Except.error e
  | Except.ok _ => env.timeUntilNextAutoMintCall

/-- Function `getTimeUntilNextAutoMint()` (lines 173-205).  On success the result
carries the raw duration as a string, its breakdown, and
`isAvailableNow := (timeInSeconds.toString() === "0")`.  On any error the
`catch` block returns the sentinel
`{timeInSeconds: "0", formatted: "Error", isAvailableNow: false}`. -/
def getTimeUntilNextAutoMint (env : Env) : TimeResult :=
  match getTimeUntilNextAutoMintBody env with
  | Except.error _ =>
    { timeInSeconds := "0", formatted := "Error", isAvailableNow := false }
  | Except.ok t =>
    { timeInSeconds := toString t
      formatted := formatDuration t
      isAvailableNow := toString t == "0" }

/-! ### Helper lemmas and concrete test environments -/

/-- The configured faucet address of the module is a non-empty (truthy)
string. -/
theorem faucet_address_nonempty : FAUCET_ADDRESS ≠ "" := by decide

/-- The digit accumulator of `Nat.toDigitsCore` never shrinks. -/
theorem toDigitsCore_len_ge (b : ℕ) :
    ∀ (fuel n : ℕ) (ds : List Char),
      ds.length ≤ (Nat.toDigitsCore b fuel n ds).length := by
  intro fuel
  induction fuel with
  | zero => intro n ds; simp [Nat.toDigitsCore]
  | succ f ih =>
    intro n ds
    simp only [Nat.toDigitsCore]
    by_cases h : n / b = 0
    · simp [h]
    · simp only [h, if_false]
      calc ds.length ≤ (Nat.digitChar (n % b) :: ds).length := by simp
        _ ≤ _ := ih (n / b) (Nat.digitChar (n % b) :: ds)

/-- The decimal rendering of a natural number is the string "0" exactly for
the number 0. -/
theorem natRepr_eq_zero_iff (n : ℕ) : Nat.repr n = "0" ↔ n = 0 := by
  constructor
  · intro h
    by_contra hn
    have hlist : Nat.toDigits 10 n = ['0'] := by
      unfold Nat.repr at h
      have h2 : (Nat.toDigits 10 n) = "0".data := by
        have h3 := congrArg String.data h
        simpa [List.asString] using h3
      simpa using h2
    unfold Nat.toDigits at hlist
    rcases Nat.lt_or_ge n 10 with hlt | hge
    · have hdiv : n / 10 = 0 := Nat.div_eq_of_lt hlt
      rw [Nat.toDigitsCore] at hlist
      simp only [hdiv, if_true] at hlist
      have hmod : n % 10 = n := Nat.mod_eq_of_lt hlt
      rw [hmod] at hlist
      interval_cases n <;> simp_all [Nat.digitChar]
    · have hdiv : n / 10 ≠ 0 := by
        intro h0
        have := Nat.div_eq_of_lt (by omega : n < 10)
        omega
      rw [Nat.toDigitsCore] at hlist
      simp only [hdiv, if_false] at hlist
      have hlen := congrArg List.length hlist
      obtain ⟨f, rfl⟩ : ∃ f, n = f + 1 := ⟨n - 1, by omega⟩
      rw [Nat.toDigitsCore] at hlen
      by_cases h2 : (f + 1) / 10 / 10 = 0
      · simp [h2] at hlen
      · simp only [h2, if_false] at hlen
        have hge2 := toDigitsCore_len_ge 10 f ((f + 1) / 10 / 10)
          (Nat.digitChar ((f + 1) / 10 % 10) :: Nat.digitChar ((f + 1) % 10) :: [])
        simp at hge2 hlen
        omega
  · intro h; subst h; rfl

/-- Restatement of `natRepr_eq_zero_iff` for `toString` on `Nat`. -/
theorem natToString_eq_zero_iff (n : ℕ) : toString n = "0" ↔ n = 0 :=
  natRepr_eq_zero_iff n

/-- A fully healthy environment: wallet present, one signer, two accounts,
an allowance of 2.5 scaled tokens, the expected linked token, a balance of
5 scaled tokens, 6 decimals, and 90061 seconds until the next auto-mint. -/
def envOk : Env :=
  { ethereumPresent := true
    getSigner := Except.ok "0xUSER"
    requestAccounts := Except.ok ["0xUSER", "0xOTHER"]
    getRemainingAllowanceCall := fun _ => Except.ok 2500000
    usdcToken := Except.ok EXPECTED_USDC_ADDRESS
    getFaucetBalanceCall := Except.ok 5000000
    decimals := Except.ok 6
    balanceOf := fun _ => Except.ok 5000000
    timeUntilNextAutoMintCall := Except.ok 90061
    requestTokensCall := fun _ => Except.ok ⟨"0xTX"⟩
    txWait := Except.ok () }

/-- The healthy environment with the wallet extension absent. -/
def envNoWallet : Env := { envOk with ethereumPresent := false }

/-- The healthy environment with a wrong linked token address. -/
def envMismatch : Env := { envOk with usdcToken := Except.ok "0xDEAD" }

/-- The healthy environment with a failing allowance contract call. -/
def envAllowErr : Env :=
  { envOk with getRemainingAllowanceCall := fun _ => Except.error "boom" }

/-- The healthy environment with different cross-validation read results
(8 decimals and a different direct balance). -/
def envCross : Env :=
  { envOk with decimals := Except.ok 8, balanceOf := fun _ => Except.ok 123 }

/-! ### Claim theorems -/

/-- C7: `getFaucetContract` fails with the ProviderUnavailable error
("MetaMask not detected") when no wallet provider is present; with the
provider present and the signer obtained, it fails with the
ConfigurationError ("Faucet contract address is undefined") when the target
contract address is unset (the falsy empty string), and otherwise returns
the contract handle bound to the caller's active signing account. -/
theorem getFaucetContract_spec (faucetAddress : String) (env : Env)
    (s : String) :
    (env.ethereumPresent = false →
      getFaucetContract faucetAddress env =
        Except.error "MetaMask not detected")
    ∧ (env.ethereumPresent = true → env.getSigner = Except.ok s →
      faucetAddress = "" →
      getFaucetContract faucetAddress env =
        Except.error "Faucet contract address is undefined")
    ∧ (env.ethereumPresent = true → env.getSigner = Except.ok s →
      faucetAddress ≠ "" →
      getFaucetContract faucetAddress env = Except.ok ⟨faucetAddress, s⟩) := by
  refine ⟨?_, ?_, ?_⟩ <;> intros <;> simp_all [getFaucetContract]

/-- Witness for C7: at concrete environments, the three branches of
`getFaucetContract_spec` produce the stated results. -/
theorem getFaucetContract_spec_witness :
    getFaucetContract FAUCET_ADDRESS envNoWallet =
      Except.error "MetaMask not detected"
    ∧ getFaucetContract "" envOk =
      Except.error "Faucet contract address is undefined"
    ∧ getFaucetContract FAUCET_ADDRESS envOk =
      Except.ok ⟨FAUCET_ADDRESS, "0xUSER"⟩ :=
  ⟨(getFaucetContract_spec FAUCET_ADDRESS envNoWallet "0xUSER").1 rfl,
   (getFaucetContract_spec "" envOk "0xUSER").2.1 rfl rfl rfl,
   (getFaucetContract_spec FAUCET_ADDRESS envOk "0xUSER").2.2 rfl rfl
     faucet_address_nonempty⟩

/-- C4: `getFaucetBalance` is a total function into a value (never an
`Except`), and whenever its try body fails with any error it returns the
sentinel zero quantity instead of propagating. -/
theorem getFaucetBalance_error_returns_zero (env : Env) (e : Err)
    (logs : List LogEvent)
    (h : getFaucetBalanceRun env = (Except.error e, logs)) :
    (getFaucetBalance env).1 = 0 := by
  simp [getFaucetBalance, h]

/-- Witness for C4: with the provider absent, the body fails and the
returned balance is the sentinel 0. -/
theorem getFaucetBalance_error_returns_zero_witness :
    (getFaucetBalance envNoWallet).1 = 0 :=
  getFaucetBalance_error_returns_zero envNoWallet "MetaMask not detected"
    [LogEvent.gettingBalance] rfl

/-- C5: `getRemainingAllowance` propagates every failure of its body
unchanged to the caller: in general, and specifically for a missing
provider, a failing signer request, a failing account request, and a
failing contract call. -/
theorem getRemainingAllowance_propagates_errors (env : Env) (e : Err) :
    (getRemainingAllowanceBody env = Except.error e →
      getRemainingAllowance env = Except.error e)
    ∧ (env.ethereumPresent = false →
      getRemainingAllowance env = Except.error "MetaMask not detected")
    ∧ (env.ethereumPresent = true → env.getSigner = Except.error e →
      getRemainingAllowance env = Except.error e)
    ∧ (∀ s, env.ethereumPresent = true → env.getSigner = Except.ok s →
      env.requestAccounts = Except.error e →
      getRemainingAllowance env = Except.error e)
    ∧ (∀ s a rest, env.ethereumPresent = true → env.getSigner = Except.ok s →
      env.requestAccounts = Except.ok (a :: rest) →
      env.getRemainingAllowanceCall a = Except.error e →
      getRemainingAllowance env = Except.error e) := by
  refine ⟨?_, ?_, ?_, ?_, ?_⟩
  · intro h
    simp [getRemainingAllowance, h]
  · intro h
    simp [getRemainingAllowance, getRemainingAllowanceBody, getFaucetContract,
      h]
  · intro hp hs
    simp [getRemainingAllowance, getRemainingAllowanceBody, getFaucetContract,
      hp, hs]
  · intro s hp hs ha
    simp [getRemainingAllowance, getRemainingAllowanceBody, getFaucetContract,
      hp, hs, ha, faucet_address_nonempty]
  · intro s a rest hp hs ha hc
    simp [getRemainingAllowance, getRemainingAllowanceBody, getFaucetContract,
      hp, hs, ha, hc, faucet_address_nonempty]

/-- Witness for C5: a failing allowance contract call propagates its error
"boom" to the caller. -/
theorem getRemainingAllowance_propagates_errors_witness :
    getRemainingAllowance envAllowErr = Except.error "boom" :=
  (getRemainingAllowance_propagates_errors envAllowErr "boom").2.2.2.2
    "0xUSER" "0xUSER" ["0xOTHER"] rfl rfl rfl rfl

/-- C6: on any failure of its body, `getTimeUntilNextAutoMint` does not
propagate the error: it returns the sentinel record with a zero duration,
the error marker text, and `isAvailableNow = false` (false despite the zero
duration). -/
theorem getTimeUntilNextAutoMint_error_sentinel (env : Env) (e : Err)
    (h : getTimeUntilNextAutoMintBody env = Except.error e) :
    getTimeUntilNextAutoMint env =
      { timeInSeconds := "0", formatted := "Error", isAvailableNow := false } := by
  simp [getTimeUntilNextAutoMint, h]

/-- Witness for C6: with the provider absent, the sentinel record is
returned. -/
theorem getTimeUntilNextAutoMint_error_sentinel_witness :
    getTimeUntilNextAutoMint envNoWallet =
      { timeInSeconds := "0", formatted := "Error", isAvailableNow := false } :=
  getTimeUntilNextAutoMint_error_sentinel envNoWallet "MetaMask not detected"
    rfl

/-- C8: `getRemainingAllowance` queries the allowance of exactly the first
account returned by the provider's account-selection request, and returns
that on-chain scaled integer decoded with the fixed `10 ^ 6` factor. -/
theorem getRemainingAllowance_uses_first_account (env : Env) (s a : String)
    (rest : List String) (n : ℕ)
    (hp : env.ethereumPresent = true) (hs : env.getSigner = Except.ok s)
    (hacc : env.requestAccounts = Except.ok (a :: rest))
    (hq : env.getRemainingAllowanceCall a = Except.ok n) :
    getRemainingAllowance env = Except.ok ((n : ℚ) / 10 ^ 6) := by
  simp [getRemainingAllowance, getRemainingAllowanceBody, getFaucetContract,
    formatUnits, hp, hs, hacc, hq, faucet_address_nonempty]

/-- Witness for C8: in the healthy environment the first account "0xUSER"
is queried and the scaled allowance 2500000 decodes to 2.5. -/
theorem getRemainingAllowance_uses_first_account_witness :
    getRemainingAllowance envOk = Except.ok ((2500000 : ℚ) / 10 ^ 6) :=
  getRemainingAllowance_uses_first_account envOk "0xUSER" "0xUSER"
    ["0xOTHER"] 2500000 rfl rfl rfl rfl

/-- C3: on a successful read of a raw duration `t`, the result of
`getTimeUntilNextAutoMint` has `isAvailableNow = true` exactly when
`t = 0`, and the days/hours/minutes breakdown of 90061 seconds is the
string "1 days, 1 hours, 1 minutes". -/
theorem timeUntilNextMint_available_iff_zero (env : Env) (s : String) (t : ℕ)
    (hp : env.ethereumPresent = true) (hs : env.getSigner = Except.ok s)
    (ht : env.timeUntilNextAutoMintCall = Except.ok t) :
    ((getTimeUntilNextAutoMint env).isAvailableNow = true ↔ t = 0)
    ∧ formatDuration 90061 = "1 days, 1 hours, 1 minutes" := by
  constructor
  · have hbody : getTimeUntilNextAutoMintBody env = Except.ok t := by
      simp [getTimeUntilNextAutoMintBody, getFaucetContract, hp, hs,
        faucet_address_nonempty, ht]
    simp only [getTimeUntilNextAutoMint, hbody, beq_iff_eq]
    exact natToString_eq_zero_iff t
  · decide

/-- Witness for C3: in the healthy environment the raw duration is 90061,
`isAvailableNow` is accordingly equivalent to `90061 = 0`, and the
breakdown string is as claimed. -/
theorem timeUntilNextMint_available_iff_zero_witness :
    (((getTimeUntilNextAutoMint envOk).isAvailableNow = true ↔ 90061 = 0)
      ∧ formatDuration 90061 = "1 days, 1 hours, 1 minutes") :=
  timeUntilNextMint_available_iff_zero envOk "0xUSER" 90061 rfl rfl rfl

/-- C2: for every positive decimal amount with at most 6 fractional digits
(its product with `10 ^ 6` is an integer), scaling as `requestTokens` does
(`parseUnits` with 6 decimals) and decoding the resulting integer as
`getRemainingAllowance` does (`formatUnits` with 6 decimals) recovers the
amount exactly. -/
theorem scale_unscale_roundtrip (q : ℚ) (hpos : 0 < q)
    (hfrac : (q * 10 ^ 6).den = 1) :
    parseUnits q 6 = Except.ok (q * 10 ^ 6).num
    ∧ formatUnits (q * 10 ^ 6).num 6 = q := by
  constructor
  · simp [parseUnits, hfrac]
  · unfold formatUnits
    rw [Rat.coe_int_num_of_den_eq_one hfrac]
    rw [mul_div_assoc]
    norm_num

/-- Witness for C2: the amount 1.5 scales to the integer 1500000 and
decodes back to 1.5 exactly. -/
theorem scale_unscale_roundtrip_witness :
    parseUnits (3 / 2) 6 = Except.ok ((3 / 2 : ℚ) * 10 ^ 6).num
    ∧ formatUnits ((3 / 2 : ℚ) * 10 ^ 6).num 6 = 3 / 2 :=
  scale_unscale_roundtrip (3 / 2) (by norm_num) (by norm_num)

/-- C1 counterexample: the claim "every negative amount fails with
InvalidAmount before any provider call" is false on the code.  With a
healthy wallet present, `requestTokens (-1)` passes the falsy-amount
validation, attempts the provider interaction, and its failure is the
uint256 encoding error, not "Amount is required". -/
theorem requestTokens_negative_cex :
    (requestTokens envOk (JsVal.vnum (-1))).2 = true
    ∧ (requestTokens envOk (JsVal.vnum (-1))).1 ≠
        Except.error "Amount is required" := by
  have h : requestTokens envOk (JsVal.vnum (-1)) =
      (Except.error "value out-of-bounds", true) := by
    simp only [requestTokens, getFaucetContract, parseUnits, encodeUint256,
      truthy, numVal, envOk]
    norm_num [faucet_address_nonempty]
  rw [h]
  refine ⟨rfl, by simp⟩

/-- C1 amended: `requestTokens` fails with the InvalidAmount error
("Amount is required") before any provider interaction exactly when the
amount argument is JavaScript-falsy (missing, null, or zero).  A negative
amount is not rejected by this validation: a provider interaction is
attempted and the eventual failure is not the InvalidAmount error. -/
theorem requestTokens_invalidAmount_validation (env : Env) (amount : JsVal) :
    (truthy amount = false →
      requestTokens env amount = (Except.error "Amount is required", false))
    ∧ (∀ q : ℚ, amount = JsVal.vnum q → q < 0 → env.ethereumPresent = true →
      (∃ s, env.getSigner = Except.ok s) →
      (requestTokens env amount).2 = true
      ∧ (requestTokens env amount).1 ≠ Except.error "Amount is required") := by
  constructor
  · intro h
    simp [requestTokens, h]
  · rintro q rfl hneg hp ⟨s, hs⟩
    have htruthy : truthy (JsVal.vnum q) = true := by
      simp [truthy]
      exact ne_of_lt hneg
    have hcontract : getFaucetContract FAUCET_ADDRESS env =
        Except.ok ⟨FAUCET_ADDRESS, s⟩ := by
      simp [getFaucetContract, hp, hs, faucet_address_nonempty]
    by_cases hden : ((q : ℚ) * 10 ^ 6).den = 1
    · have hnum : (q * 10 ^ 6).num < 0 := by
        rw [Rat.num_neg]
        have : (0 : ℚ) < 10 ^ 6 := by norm_num
        exact mul_neg_of_neg_of_pos hneg this
      have henc : encodeUint256 (q * 10 ^ 6).num =
          Except.error "value out-of-bounds" := by
        simp [encodeUint256, hnum]
      simp [requestTokens, htruthy, hcontract, numVal, parseUnits, hden, henc]
    · simp [requestTokens, htruthy, hcontract, numVal, parseUnits, hden]

/-- Witness for C1 amended: the zero amount is rejected before any
provider interaction, while the amount -2 triggers a provider interaction
and fails with a different error. -/
theorem requestTokens_invalidAmount_validation_witness :
    requestTokens envOk (JsVal.vnum 0) =
      (Except.error "Amount is required", false)
    ∧ ((requestTokens envOk (JsVal.vnum (-2))).2 = true
      ∧ (requestTokens envOk (JsVal.vnum (-2))).1 ≠
          Except.error "Amount is required") :=
  ⟨(requestTokens_invalidAmount_validation envOk (JsVal.vnum 0)).1
      (by simp [truthy]),
   (requestTokens_invalidAmount_validation envOk (JsVal.vnum (-2))).2
      (-2) rfl (by norm_num) rfl ⟨"0xUSER", rfl⟩⟩

/-- C9: when the faucet's linked token address differs (case-insensitively)
from the expected configured address, `getFaucetBalance` reports the
mismatch in its log trace without aborting — it still returns the formatted
faucet balance — and the direct balance it logs for cross-validation is
formatted with the dynamically queried token decimals. -/
theorem getFaucetBalance_mismatch_logged_no_abort (env : Env)
    (s tokenAddress : String) (bal dec direct : ℕ)
    (hp : env.ethereumPresent = true) (hs : env.getSigner = Except.ok s)
    (htok : env.usdcToken = Except.ok tokenAddress)
    (hmm : toLowerStr tokenAddress ≠ toLowerStr EXPECTED_USDC_ADDRESS)
    (hbal : env.getFaucetBalanceCall = Except.ok bal)
    (hdec : env.decimals = Except.ok dec)
    (hdir : env.balanceOf FAUCET_ADDRESS = Except.ok direct) :
    (getFaucetBalance env).1 = formatUnits bal 6
    ∧ LogEvent.addrMismatch ∈ (getFaucetBalance env).2
    ∧ LogEvent.directBalanceCheck (formatUnits direct dec) ∈
        (getFaucetBalance env).2 := by
  have hrun : getFaucetBalance env =
      (formatUnits bal 6,
        [LogEvent.gettingBalance, LogEvent.usdcTokenAddr tokenAddress,
         LogEvent.expectedUsdcAddr EXPECTED_USDC_ADDRESS,
         LogEvent.addrMismatch, LogEvent.connectedTo FAUCET_ADDRESS,
         LogEvent.rawBalance bal, LogEvent.formattedBalance (formatUnits bal 6),
         LogEvent.tokenDecimals dec,
         LogEvent.directBalanceCheck (formatUnits direct dec)]) := by
    simp [getFaucetBalance, getFaucetBalanceRun, getFaucetContract, hp, hs,
      htok, hmm, hbal, hdec, hdir, faucet_address_nonempty]
  rw [hrun]
  refine ⟨rfl, by simp, by simp⟩

/-- Witness for C9: with the linked token "0xDEAD" instead of the expected
address, the mismatch is logged, the returned balance is still the decoded
faucet balance 5, and the logged direct check uses the queried 6 decimals. -/
theorem getFaucetBalance_mismatch_logged_no_abort_witness :
    (getFaucetBalance envMismatch).1 = formatUnits 5000000 6
    ∧ LogEvent.addrMismatch ∈ (getFaucetBalance envMismatch).2
    ∧ LogEvent.directBalanceCheck (formatUnits 5000000 6) ∈
        (getFaucetBalance envMismatch).2 :=
  getFaucetBalance_mismatch_logged_no_abort envMismatch "0xUSER" "0xDEAD"
    5000000 6 5000000 rfl rfl rfl (by decide) rfl rfl rfl

/-- C10: the value returned by `getFaucetBalance` is determined solely by
the faucet contract's own balance read: two environments that agree on the
wallet, the signer, the linked token address and the faucet balance, but
whose cross-validation reads (`decimals()` and the direct `balanceOf`)
succeed with arbitrarily different values, yield the same returned
balance. -/
theorem getFaucetBalance_crossvalidation_noninterference
    (env1 env2 : Env) (d1 d2 db1 db2 : ℕ)
    (hp : env1.ethereumPresent = env2.ethereumPresent)
    (hs : env1.getSigner = env2.getSigner)
    (htok : env1.usdcToken = env2.usdcToken)
    (hbal : env1.getFaucetBalanceCall = env2.getFaucetBalanceCall)
    (hd1 : env1.decimals = Except.ok d1)
    (hd2 : env2.decimals = Except.ok d2)
    (hb1 : env1.balanceOf FAUCET_ADDRESS = Except.ok db1)
    (hb2 : env2.balanceOf FAUCET_ADDRESS = Except.ok db2) :
    (getFaucetBalance env1).1 = (getFaucetBalance env2).1 := by
  unfold getFaucetBalance getFaucetBalanceRun getFaucetContract
  rw [hp, hs, htok, hbal, hd1, hd2, hb1, hb2]
  cases hpv : env2.ethereumPresent
  · simp
  · simp only [Bool.not_true, Bool.false_eq_true, if_false]
    cases hsv : env2.getSigner
    · simp
    · simp only [faucet_address_nonempty, if_neg, ite_false]
      cases htv : env2.usdcToken
      · simp
      · cases hbv : env2.getFaucetBalanceCall
        · simp
        · simp

/-- Witness for C10: in the healthy environment and its variant with 8
decimals and a different direct balance, the returned balance is the
same. -/
theorem getFaucetBalance_crossvalidation_noninterference_witness :
    (getFaucetBalance envOk).1 = (getFaucetBalance envCross).1 :=
  getFaucetBalance_crossvalidation_noninterference envOk envCross 6 8
    5000000 123 rfl rfl rfl rfl rfl rfl rfl rfl

end Faucet
